import Mathlib

/-
  Shallow embedding of `src/kilonova.py` (the Kilonova volume backup tool).

  The external world (subprocesses launched through the shell) is modelled as a
  pure function from the shell command string to the triple
  (exit code, standard output, standard error) that the launched process would
  produce.  `subprocess.run` is modelled by `runShell`; when the Python call
  does not pass `capture_output = True`, the `stdout`/`stderr` fields of the
  returned result are `none`, mirroring `CompletedProcess.stdout == None`.

  Functions that may call `sys.exit`/`exit` or raise an uncaught `IndexError`
  return an `Outcome`.  Each operation additionally returns the list of
  observable effects it performed (subprocess invocations and the final
  `shutil.move`), in order.
-/

namespace Kilonova

/-- The behaviour of the external world: for a shell command string, the exit
code, the standard output and the standard error of the spawned process. -/
abbrev World := String → Int × String × String

/-- Model of `subprocess.CompletedProcess`: `stdout`/`stderr` are `none` when
the Python call did not capture them. -/
structure ProcResult where
  returncode : Int
  stdout : Option String
  stderr : Option String

/-- Model of `subprocess.run(shell, shell = True, ...)`:
`capture` is whether `capture_output = True` was passed. -/
def runShell (w : World) (capture : Bool) (cmd : String) : ProcResult :=
  { returncode := (w cmd).1
    stdout := if capture then some (w cmd).2.1 else none
    stderr := if capture then some (w cmd).2.2 else none }

/-- The result of running a piece of the Python program: a normal return,
a `sys.exit(code)`, or an uncaught `IndexError`. -/
inductive Outcome (α : Type) where
  | ok (a : α)
  | exit (code : Nat)
  | indexError
deriving DecidableEq

/-- An observable effect: a blocking subprocess invocation of a shell command,
or a `shutil.move(src, dst)`. -/
inductive Event where
  | run (cmd : String)
  | move (src dst : String)
deriving DecidableEq

/-- `IMAGE` constant of `kilonova.py` (line 11). -/
def IMAGE : String := "docker.io/library/busybox:1.36.0"

/-- Worker for `pySplit`: splits a character list on runs of whitespace,
dropping empty fields.  `acc` is the current field, reversed. -/
def pySplitAux : List Char → List Char → List String
  | [], acc => if acc = [] then [] else [String.mk acc.reverse]
  | c :: rest, acc =>
    if c.isWhitespace then
      if acc = [] then pySplitAux rest []
      else String.mk acc.reverse :: pySplitAux rest []
    else pySplitAux rest (c :: acc)

/-- Python `str.split()` with no separator: split on runs of whitespace and
drop empty fields. -/
def pySplit (s : String) : List String := pySplitAux s.data []

/-- Worker for `pySplitlines`: splits a character list at line boundaries
(LF, CR, CRLF), not keeping a trailing empty line.  `acc` is the current line,
reversed. -/
def splitlinesAux : List Char → List Char → List (List Char)
  | [], [] => []
  | [], acc => [acc.reverse]
  | '\r' :: '\n' :: rest, acc => acc.reverse :: splitlinesAux rest []
  | '\r' :: rest, acc => acc.reverse :: splitlinesAux rest []
  | '\n' :: rest, acc => acc.reverse :: splitlinesAux rest []
  | c :: rest, acc => splitlinesAux rest (c :: acc)

/-- Python `str.splitlines()` (restricted to the LF/CR/CRLF boundaries). -/
def pySplitlines (s : String) : List String :=
  (splitlinesAux s.data []).map (fun cs => String.mk cs)

/-- Python `str.strip()` with no argument: remove leading and trailing
whitespace.  Used only to state the spec's notion of "trimming". -/
def pyStrip (s : String) : String :=
  String.mk (((s.data.dropWhile Char.isWhitespace).reverse.dropWhile
    Char.isWhitespace).reverse)

/-- The `command` list built by `volume_empty` (lines 19-30); the local
`directory` is `"/volume"`. -/
def volume_empty_command (engine volume : String) : List String :=
  [engine, "run", "--rm", "-it", "--mount",
   "type=volume,source=" ++ volume ++ ",target=/volume",
   IMAGE, "ls", "-A", "/volume"]

/-- `shell = " ".join(command)` in `volume_empty` (line 32). -/
def volume_empty_shell (engine volume : String) : String :=
  String.intercalate " " (volume_empty_command engine volume)

/-- The value/exit behaviour of `volume_empty` (lines 36-42): the run is
captured; non-zero exit code calls `sys.exit(1)`; otherwise the function
returns `result.stdout == ""` (exact equality, no stripping). -/
def volume_empty_result (w : World) (engine volume : String) : Outcome Bool :=
  let result := runShell w true (volume_empty_shell engine volume)
  if result.returncode ≠ 0 then Outcome.exit 1
  else Outcome.ok (decide (result.stdout = some ""))

/-- `volume_empty` (lines 13-42): result paired with the single subprocess
invocation it performs. -/
def volume_empty (w : World) (engine volume : String) :
    Outcome Bool × List Event :=
  (volume_empty_result w engine volume,
   [Event.run (volume_empty_shell engine volume)])

/-- `" ".join(["docker", "volume", "ls"])` (lines 55-61). -/
def docker_ls_shell : String :=
  String.intercalate " " ["docker", "volume", "ls"]

/-- The `command` list of the podman branch of `volume_exists`
(lines 77-82). -/
def podman_exists_command (volume : String) : List String :=
  ["podman", "volume", "exists", volume]

/-- `shell = " ".join(command)` in the podman branch (line 84). -/
def podman_exists_shell (volume : String) : String :=
  String.intercalate " " (podman_exists_command volume)

/-- The shell command `volume_exists` runs for a given engine. -/
def volume_exists_shell (engine volume : String) : String :=
  if engine == "docker" then docker_ls_shell else podman_exists_shell volume

/-- `lines = [column.split()[1] for column in output.splitlines()]`
(line 73): the second whitespace-delimited field of every line; `none` when
some line has fewer than two fields, in which case the comprehension raises
`IndexError`. -/
def second_columns : List String → Option (List String)
  | [] => some []
  | l :: ls =>
    match (pySplit l)[1]? with
    | none => none
    | some x =>
      match second_columns ls with
      | none => none
      | some xs => some (x :: xs)

/-- The value/exit behaviour of `volume_exists` (lines 50-97).
Docker branch (lines 54-75): captured run of `docker volume ls`; non-zero
exit code calls `exit(1)`; a listing line with fewer than two fields raises
`IndexError`; otherwise returns `volume in lines`.
Podman branch (lines 76-97): uncaptured run of `podman volume exists VOLUME`,
so `result.stdout` is `None`; exit code `0` returns `True`; otherwise the
test `output != ""` compares `None` with `""` and is always true, returning
`False` (the `exit(1)` branch of line 97 is unreachable). -/
def volume_exists_result (w : World) (engine volume : String) : Outcome Bool :=
  if engine == "docker" then
    let result := runShell w true docker_ls_shell
    let output := result.stdout.getD ""
    if result.returncode ≠ 0 then Outcome.exit 1
    else
      match second_columns (pySplitlines output) with
      | none => Outcome.indexError
      | some names => Outcome.ok (decide (volume ∈ names))
  else
    let result := runShell w false (podman_exists_shell volume)
    if result.returncode = 0 then Outcome.ok true
    else if result.stdout ≠ some "" then Outcome.ok false
    else Outcome.exit 1

/-- `volume_exists` (lines 50-97): result paired with the single subprocess
invocation it performs. -/
def volume_exists (w : World) (engine volume : String) :
    Outcome Bool × List Event :=
  (volume_exists_result w engine volume,
   [Event.run (volume_exists_shell engine volume)])

/-- Sequencing of effectful steps: a `sys.exit` or an uncaught exception in
the first step propagates, discarding the continuation. -/
def bindO {α β : Type} (x : Outcome α × List Event)
    (f : α → Outcome β × List Event) : Outcome β × List Event :=
  match x with
  | (Outcome.ok a, t) => ((f a).fst, t ++ (f a).snd)
  | (Outcome.exit c, t) => (Outcome.exit c, t)
  | (Outcome.indexError, t) => (Outcome.indexError, t)

/-- The filesystem/`pathlib`/`tempfile` environment of one invocation:
`resolve` is `pathlib.Path(p).resolve()`, `name` is `Path.name` of a resolved
path, `pathExists` is `Path.exists()`, `tempDir` is the directory created by
`tempfile.TemporaryDirectory()`, and `resolveJoin a b` is
`pathlib.Path(a, b).resolve()`. -/
structure Fs where
  resolve : String → String
  name : String → String
  pathExists : String → Bool
  tempDir : String
  resolveJoin : String → String → String

/-- The `command` list built by `backup` (lines 123-139); the locals
`source_directory`/`target_directory` are `"/in"`/`"/out"` and `options` is
`"acf"` when quiet, `"vacf"` otherwise. -/
def backup_command (engine volume temp_directory filename : String)
    (quiet : Bool) : List String :=
  [engine, "run", "--rm", "-it", "--mount",
   "type=volume,source=" ++ volume ++ ",target=/in",
   "--mount",
   "type=bind,source=" ++ temp_directory ++ ",target=/out",
   IMAGE, "tar",
   (if quiet then "acf" else "vacf"),
   "/out/" ++ filename,
   "-C", "/in", "."]

/-- The shell string of the main `backup` invocation, with
`filename = Path(output).resolve().name` as in lines 111-112. -/
def backup_shell (fs : Fs) (engine volume output : String) (quiet : Bool) :
    String :=
  String.intercalate " "
    (backup_command engine volume fs.tempDir (fs.name (fs.resolve output))
      quiet)

/-- `backup` (lines 99-157): exits 1 when the volume does not exist, exits 1
when it is empty, then runs the archiving container in a fresh temporary
directory; a non-zero exit code exits 1, and only a zero exit code is
followed by `shutil.move` of the produced archive to the resolved output
path. -/
def backup (w : World) (fs : Fs) (engine volume output : String)
    (quiet : Bool) : Outcome Unit × List Event :=
  let target := fs.resolve output
  let filename := fs.name target
  bindO (volume_exists w engine volume) (fun ex =>
    if !ex then (Outcome.exit 1, [])
    else
      bindO (volume_empty w engine volume) (fun emp =>
        if emp then (Outcome.exit 1, [])
        else
          let shell := String.intercalate " "
            (backup_command engine volume fs.tempDir filename quiet)
          let result := runShell w false shell
          if result.returncode ≠ 0 then (Outcome.exit 1, [Event.run shell])
          else
            (Outcome.ok (),
             [Event.run shell,
              Event.move (fs.resolveJoin fs.tempDir filename) target])))

/-- The `command` list built by `restore` (lines 187-202); `source` is the
in-container path `"/in/" ++ input_path.name` and the target directory is
`"/out"`; `options` is `"xf"` when quiet, `"vxf"` otherwise. -/
def restore_command (engine input_path source volume : String)
    (quiet : Bool) : List String :=
  [engine, "run", "--rm", "-it", "--mount",
   "type=bind,source=" ++ input_path ++ ",target=" ++ source,
   "--mount",
   "type=volume,source=" ++ volume ++ ",target=/out",
   IMAGE, "tar",
   (if quiet then "xf" else "vxf"),
   source, "-C", "/out"]

/-- `restore` (lines 159-214): exits 1 when the target volume does not
exist, exits 1 when it is not empty, exits 1 when the resolved input path
does not exist, then runs the extraction container; a non-zero exit code
exits 1. -/
def restore (w : World) (fs : Fs) (engine input volume : String)
    (quiet : Bool) : Outcome Unit × List Event :=
  bindO (volume_exists w engine volume) (fun ex =>
    if !ex then (Outcome.exit 1, [])
    else
      bindO (volume_empty w engine volume) (fun emp =>
        if !emp then (Outcome.exit 1, [])
        else
          let input_path := fs.resolve input
          if !(fs.pathExists input_path) then (Outcome.exit 1, [])
          else
            let source := "/in/" ++ fs.name input_path
            let shell := String.intercalate " "
              (restore_command engine input_path source volume quiet)
            let result := runShell w false shell
            if result.returncode ≠ 0 then (Outcome.exit 1, [Event.run shell])
            else (Outcome.ok (), [Event.run shell])))

/-- The `command` list built by `clone` (lines 245-259); the
source/target directories are `"/in"`/`"/out"` and `options` is `"-rfp"`
when quiet, `"-rfvp"` otherwise. -/
def clone_command (engine source target : String) (quiet : Bool) :
    List String :=
  [engine, "run", "--rm", "-it", "--mount",
   "type=volume,source=" ++ source ++ ",target=/in",
   "--mount",
   "type=volume,source=" ++ target ++ ",target=/out",
   IMAGE, "cp",
   (if quiet then "-rfp" else "-rfvp"),
   "/in/.", "/out"]

/-- `clone` (lines 216-271): exits 1 when the source volume does not exist,
when the source volume is empty, when the target volume does not exist, or
when the target volume is not empty; then runs the copy container; a
non-zero exit code exits 1. -/
def clone (w : World) (engine source target : String) (quiet : Bool) :
    Outcome Unit × List Event :=
  bindO (volume_exists w engine source) (fun sEx =>
    if !sEx then (Outcome.exit 1, [])
    else
      bindO (volume_empty w engine source) (fun sEmp =>
        if sEmp then (Outcome.exit 1, [])
        else
          bindO (volume_exists w engine target) (fun tEx =>
            if !tEx then (Outcome.exit 1, [])
            else
              bindO (volume_empty w engine target) (fun tEmp =>
                if !tEmp then (Outcome.exit 1, [])
                else
                  let shell := String.intercalate " "
                    (clone_command engine source target quiet)
                  let result := runShell w false shell
                  if result.returncode ≠ 0 then
                    (Outcome.exit 1, [Event.run shell])
                  else (Outcome.ok (), [Event.run shell])))))

/-- Whether an event is a subprocess invocation. -/
def Event.isRun : Event → Bool
  | Event.run _ => true
  | Event.move _ _ => false

/-- Whether an event is a `shutil.move`. -/
def Event.isMove : Event → Bool
  | Event.move _ _ => true
  | Event.run _ => false

/-- Number of blocking subprocess invocations in a trace. -/
def runCount (t : List Event) : Nat := (t.filter Event.isRun).length

/-- Whether a trace contains a filesystem move. -/
def hasMove (t : List Event) : Bool := t.any Event.isMove

/-- A concrete filesystem environment for witnesses: resolution is the
identity, every path exists, and the temporary directory is fixed. -/
def fs0 : Fs :=
  { resolve := fun p => p
    name := fun p => p
    pathExists := fun _ => true
    tempDir := "/tmp/kilonova"
    resolveJoin := fun a b => a ++ "/" ++ b }

/-- A world where every command exits 0 with whitespace-only output. -/
def w_c1 : World := fun _ => (0, " \n", "")

/-- A world where every command fails with a diagnostic message. -/
def w_c2 : World := fun _ => (125, "Error: diagnostic", "Error: diagnostic")

/-- A world whose volume listing has a well-formed header line and one
volume row. -/
def w_c3 : World := fun _ => (0, "DRIVER VOLUME\nlocal myvol", "")

/-- A world whose volume listing output is a single blank line. -/
def w_c10 : World := fun _ => (0, "\n", "")

/-- A world in which the docker listing shows volumes `a` and `b`, volume
`a` has content `f.txt`, volume `b` is empty, and every other command
(in particular every main tar/cp invocation) succeeds. -/
def w_list : World := fun c =>
  if c = docker_ls_shell then (0, "local a\nlocal b", "")
  else if c = volume_empty_shell "docker" "a" then (0, "f.txt", "")
  else (0, "", "")

/-- Like `w_list`, but every command other than the two inspection commands
(in particular the main tar invocation) fails with exit code 1. -/
def w_mainfail : World := fun c =>
  if c = docker_ls_shell then (0, "local a\nlocal b", "")
  else if c = volume_empty_shell "docker" "a" then (0, "f.txt", "")
  else (1, "", "boom")

/-- A list with at least two elements has its index-1 lookup equal to its
`getD 1` value. -/
theorem get1_eq_getD : ∀ {xs : List String}, 2 ≤ xs.length →
    xs[1]? = some (xs.getD 1 "")
  | _ :: _ :: _, _ => by simp [List.getD]
  | [], h => absurd h (by simp)
  | [_], h => absurd h (by simp)

/-- When every line has at least two whitespace-delimited fields, the
comprehension of line 73 succeeds and yields the second field of each
line. -/
theorem second_columns_all (ls : List String) :
    (∀ l ∈ ls, 2 ≤ (pySplit l).length) →
    second_columns ls = some (ls.map (fun l => (pySplit l).getD 1 "")) := by
  induction ls with
  | nil => intro _; rfl
  | cons a as ih =>
    intro h
    have ha := h a (List.mem_cons_self a as)
    have hrest : ∀ l ∈ as, 2 ≤ (pySplit l).length :=
      fun l hl => h l (List.mem_cons_of_mem a hl)
    simp only [second_columns, get1_eq_getD ha, ih hrest, List.map]

/-- Claim C1, counterexample: a content-listing invocation that exits 0 with
whitespace-only standard output (empty after trimming) makes `volume_empty`
return `false`, not `true` as the claim states: line 42 compares
`result.stdout` with `""` exactly and performs no trimming. -/
theorem c1_counterexample :
    (w_c1 (volume_empty_shell "docker" "data")).1 = 0 ∧
    pyStrip (w_c1 (volume_empty_shell "docker" "data")).2.1 = "" ∧
    (volume_empty w_c1 "docker" "data").fst = Outcome.ok false := by
  refine ⟨rfl, rfl, ?_⟩
  decide

/-- Claim C1, amended: for every engine and volume, if the content-listing
invocation exits 0 then `volume_empty` returns true exactly when its standard
output is the empty string (no trimming is applied, so whitespace-only output
yields false); if the invocation exits non-zero, `volume_empty` does not
return but terminates the process with exit code 1. -/
theorem c1_volume_empty_exact (w : World) (engine volume : String) :
    (volume_empty w engine volume).fst =
      (if (w (volume_empty_shell engine volume)).1 ≠ 0 then Outcome.exit 1
       else Outcome.ok
         (decide ((w (volume_empty_shell engine volume)).2.1 = ""))) := by
  simp only [volume_empty, volume_empty_result, runShell, if_true]
  split
  · rfl
  · congr 1
    rw [decide_eq_decide]
    exact Option.some_inj

/-- Claim C2, counterexample: for podman, an existence-check invocation that
exits non-zero while the process emits diagnostic output makes
`volume_exists` return `false` rather than terminate with exit code 1:
since the run is not captured, `result.stdout` is `None`, the test
`output != ""` is always true, and the hard-failure branch of line 97 is
unreachable. -/
theorem c2_counterexample :
    (w_c2 (podman_exists_shell "data")).1 ≠ 0 ∧
    (w_c2 (podman_exists_shell "data")).2.1 ≠ "" ∧
    (w_c2 (podman_exists_shell "data")).2.2 ≠ "" ∧
    (volume_exists w_c2 "podman" "data").fst = Outcome.ok false := by
  refine ⟨by decide, by decide, by decide, ?_⟩
  decide

/-- Claim C2, amended: for the podman engine, `volume_exists` interprets a
zero exit code of the existence-check subcommand as existence (returns
true), and every non-zero exit makes it return false — it never terminates
the process, because standard output is not captured (`None` compares
unequal to `""`), leaving the hard-failure branch unreachable. -/
theorem c2_podman_zero_is_exists (w : World) (volume : String) :
    (volume_exists w "podman" volume).fst =
      Outcome.ok (decide ((w (podman_exists_shell volume)).1 = 0)) := by
  have hpd : ("podman" == "docker") = false := rfl
  simp only [volume_exists, volume_exists_result, runShell, hpd,
    Bool.false_eq_true, if_false]
  by_cases h : (w (podman_exists_shell volume)).1 = 0
  · simp [h]
  · simp [h]

/-- Claim C3: for the docker engine, when the volume-listing invocation
exits 0 and every listing line has at least two whitespace-delimited fields,
`volume_exists` returns true exactly when the volume name appears in the
second whitespace-delimited column of some listing line, and false
otherwise. -/
theorem c3_docker_second_column (w : World) (volume : String)
    (h0 : (w docker_ls_shell).1 = 0)
    (hw : ∀ l ∈ pySplitlines (w docker_ls_shell).2.1,
      2 ≤ (pySplit l).length) :
    (volume_exists w "docker" volume).fst =
      Outcome.ok (decide (volume ∈
        (pySplitlines (w docker_ls_shell).2.1).map
          (fun l => (pySplit l).getD 1 ""))) := by
  have hdd : ("docker" == "docker") = true := rfl
  simp only [volume_exists, volume_exists_result, runShell, hdd, if_true,
    Option.getD_some, h0]
  rw [second_columns_all _ hw]
  simp

/-- Claim C3, witness: with a listing showing a header line and the volume
row `local myvol`, `volume_exists` reports that `myvol` exists. -/
theorem c3_witness :
    (volume_exists w_c3 "docker" "myvol").fst =
      Outcome.ok (decide ("myvol" ∈
        (pySplitlines (w_c3 docker_ls_shell).2.1).map
          (fun l => (pySplit l).getD 1 ""))) :=
  c3_docker_second_column w_c3 "myvol" (by decide) (by decide)

/-- Claim C9: the command passed to the shell is the space-join of the
argument list, and command construction is not injective: two distinct
argument lists built by `backup` — one where the volume name contains
spaces and mount syntax, one where the temporary-directory value does —
produce identical shell command strings, so such values are mishandled. -/
theorem c9_join_not_injective :
    backup_command "docker" "x,target=/in --mount type=bind,source=y" "z"
        "f" false ≠
      backup_command "docker" "x" "y,target=/in --mount type=bind,source=z"
        "f" false ∧
    String.intercalate " "
        (backup_command "docker" "x,target=/in --mount type=bind,source=y"
          "z" "f" false) =
      String.intercalate " "
        (backup_command "docker" "x"
          "y,target=/in --mount type=bind,source=z" "f" false) := by
  constructor
  · decide
  · rfl

/-- Claim C10: for the docker engine, `volume_exists` is not total over
listing outputs: on a listing output consisting of a single blank line, the
listing invocation exits 0 yet extracting the second column raises an
uncaught `IndexError` instead of returning a boolean or exiting with
code 1. -/
theorem c10_docker_index_error :
    (w_c10 docker_ls_shell).1 = 0 ∧
    pySplitlines (w_c10 docker_ls_shell).2.1 = [""] ∧
    (pySplit "").length < 2 ∧
    (volume_exists w_c10 "docker" "data").fst = Outcome.indexError := by
  refine ⟨rfl, by decide, by decide, ?_⟩
  decide

/-- A successful `backup` performs exactly three subprocess invocations. -/
theorem backup_ok_runCount (w : World) (fs : Fs) (e v o : String) (q : Bool)
    (h : (backup w fs e v o q).fst = Outcome.ok ()) :
    runCount (backup w fs e v o q).snd = 3 := by
  unfold backup at h ⊢
  cases hx : volume_exists_result w e v with
  | exit c => simp [volume_exists, bindO, hx] at h
  | indexError => simp [volume_exists, bindO, hx] at h
  | ok b =>
    cases b with
    | false => simp [volume_exists, bindO, hx] at h
    | true =>
      cases he : volume_empty_result w e v with
      | exit c => simp [volume_exists, volume_empty, bindO, hx, he] at h
      | indexError => simp [volume_exists, volume_empty, bindO, hx, he] at h
      | ok b2 =>
        cases b2 with
        | true => simp [volume_exists, volume_empty, bindO, hx, he] at h
        | false =>
          by_cases hrc :
            (w (String.intercalate " " (backup_command e v fs.tempDir
              (fs.name (fs.resolve o)) q))).1 = 0
          · simp [volume_exists, volume_empty, bindO, runShell, hx, he, hrc,
              runCount, Event.isRun]
          · simp [volume_exists, volume_empty, bindO, runShell, hx, he,
              hrc] at h

/-- A successful `restore` performs exactly three subprocess invocations. -/
theorem restore_ok_runCount (w : World) (fs : Fs) (e i v : String)
    (q : Bool) (h : (restore w fs e i v q).fst = Outcome.ok ()) :
    runCount (restore w fs e i v q).snd = 3 := by
  unfold restore at h ⊢
  cases hx : volume_exists_result w e v with
  | exit c => simp [volume_exists, bindO, hx] at h
  | indexError => simp [volume_exists, bindO, hx] at h
  | ok b =>
    cases b with
    | false => simp [volume_exists, bindO, hx] at h
    | true =>
      cases he : volume_empty_result w e v with
      | exit c => simp [volume_exists, volume_empty, bindO, hx, he] at h
      | indexError => simp [volume_exists, volume_empty, bindO, hx, he] at h
      | ok b2 =>
        cases b2 with
        | false => simp [volume_exists, volume_empty, bindO, hx, he] at h
        | true =>
          by_cases hp : fs.pathExists (fs.resolve i) = true
          · by_cases hrc :
              (w (String.intercalate " " (restore_command e (fs.resolve i)
                ("/in/" ++ fs.name (fs.resolve i)) v q))).1 = 0
            · simp [volume_exists, volume_empty, bindO, runShell, hx, he,
                hp, hrc, runCount, Event.isRun]
            · simp [volume_exists, volume_empty, bindO, runShell, hx, he,
                hp, hrc] at h
          · simp [volume_exists, volume_empty, bindO, hx, he, hp] at h

/-- A successful `clone` performs exactly five subprocess invocations. -/
theorem clone_ok_runCount (w : World) (e s t : String) (q : Bool)
    (h : (clone w e s t q).fst = Outcome.ok ()) :
    runCount (clone w e s t q).snd = 5 := by
  unfold clone at h ⊢
  cases hx : volume_exists_result w e s with
  | exit c => simp [volume_exists, bindO, hx] at h
  | indexError => simp [volume_exists, bindO, hx] at h
  | ok b =>
    cases b with
    | false => simp [volume_exists, bindO, hx] at h
    | true =>
      cases he : volume_empty_result w e s with
      | exit c => simp [volume_exists, volume_empty, bindO, hx, he] at h
      | indexError => simp [volume_exists, volume_empty, bindO, hx, he] at h
      | ok b2 =>
        cases b2 with
        | true => simp [volume_exists, volume_empty, bindO, hx, he] at h
        | false =>
          cases hx2 : volume_exists_result w e t with
          | exit c =>
            simp [volume_exists, volume_empty, bindO, hx, he, hx2] at h
          | indexError =>
            simp [volume_exists, volume_empty, bindO, hx, he, hx2] at h
          | ok b3 =>
            cases b3 with
            | false =>
              simp [volume_exists, volume_empty, bindO, hx, he, hx2] at h
            | true =>
              cases he2 : volume_empty_result w e t with
              | exit c =>
                simp [volume_exists, volume_empty, bindO, hx, he, hx2,
                  he2] at h
              | indexError =>
                simp [volume_exists, volume_empty, bindO, hx, he, hx2,
                  he2] at h
              | ok b4 =>
                cases b4 with
                | false =>
                  simp [volume_exists, volume_empty, bindO, hx, he, hx2,
                    he2] at h
                | true =>
                  by_cases hrc :
                    (w (String.intercalate " "
                      (clone_command e s t q))).1 = 0
                  · simp [volume_exists, volume_empty, bindO, runShell,
                      hx, he, hx2, he2, hrc, runCount, Event.isRun]
                  · simp [volume_exists, volume_empty, bindO, runShell,
                      hx, he, hx2, he2, hrc] at h

/-- Claim C4, counterexample: a clone in which every check and the copy
itself succeed issues five blocking subprocess invocations — one main
invocation preceded by four precondition checks, not by at most two as the
claim states. -/
theorem c4_counterexample :
    (clone w_list "docker" "a" "b" false).fst = Outcome.ok () ∧
    runCount (clone w_list "docker" "a" "b" false).snd = 5 ∧
    ¬ runCount (clone w_list "docker" "a" "b" false).snd ≤ 3 := by
  refine ⟨by decide, by decide, by decide⟩

/-- Claim C4, amended: each operation issues exactly one blocking external
command invocation for its main work; for backup and restore it is preceded
by exactly two blocking precondition-check subprocess invocations (three
invocations in total on success), while for clone it is preceded by four
(five invocations in total on success). -/
theorem c4_invocation_counts (w : World) (fs : Fs) (e v o i u s t : String)
    (q : Bool) :
    ((backup w fs e v o q).fst = Outcome.ok () →
      runCount (backup w fs e v o q).snd = 3) ∧
    ((restore w fs e i u q).fst = Outcome.ok () →
      runCount (restore w fs e i u q).snd = 3) ∧
    ((clone w e s t q).fst = Outcome.ok () →
      runCount (clone w e s t q).snd = 5) :=
  ⟨backup_ok_runCount w fs e v o q, restore_ok_runCount w fs e i u q,
   clone_ok_runCount w e s t q⟩

/-- Claim C4, witness: in a world where volume `a` exists and is non-empty,
volume `b` exists and is empty, and all main invocations succeed, a backup
of `a`, a restore into `b` and a clone of `a` into `b` perform 3, 3 and 5
subprocess invocations respectively. -/
theorem c4_witness :
    runCount (backup w_list fs0 "docker" "a" "out" false).snd = 3 ∧
    runCount (restore w_list fs0 "docker" "in.tar" "b" false).snd = 3 ∧
    runCount (clone w_list "docker" "a" "b" false).snd = 5 :=
  ⟨(c4_invocation_counts w_list fs0 "docker" "a" "out" "in.tar" "b" "a" "b"
      false).1 (by decide),
   (c4_invocation_counts w_list fs0 "docker" "a" "out" "in.tar" "b" "a" "b"
      false).2.1 (by decide),
   (c4_invocation_counts w_list fs0 "docker" "a" "out" "in.tar" "b" "a" "b"
      false).2.2 (by decide)⟩

/-- Claim C5: for every backup invocation whose precondition checks passed
(the volume exists and is non-empty), a non-zero exit of the
helper-container subprocess makes the program terminate with exit code 1
without performing any filesystem move, and the move of the archive to the
resolved output path happens exactly when that subprocess exits 0. -/
theorem c5_backup_move_gated (w : World) (fs : Fs) (e v o : String)
    (q : Bool) (hex : volume_exists_result w e v = Outcome.ok true)
    (hne : volume_empty_result w e v = Outcome.ok false) :
    ((w (backup_shell fs e v o q)).1 ≠ 0 →
      (backup w fs e v o q).fst = Outcome.exit 1 ∧
      hasMove (backup w fs e v o q).snd = false) ∧
    ((w (backup_shell fs e v o q)).1 = 0 →
      (backup w fs e v o q).fst = Outcome.ok () ∧
      Event.move (fs.resolveJoin fs.tempDir (fs.name (fs.resolve o)))
        (fs.resolve o) ∈ (backup w fs e v o q).snd) := by
  constructor
  · intro hrc
    simp only [backup_shell] at hrc
    constructor <;>
      simp [backup, volume_exists, volume_empty, bindO,
        runShell, hex, hne, hrc, hasMove, Event.isMove]
  · intro hrc
    simp only [backup_shell] at hrc
    constructor <;>
      simp [backup, volume_exists, volume_empty, bindO,
        runShell, hex, hne, hrc]

/-- Claim C5, witness: with preconditions passing, a failing tar container
(world `w_mainfail`) yields exit code 1 and no move, and a succeeding one
(world `w_list`) yields success with the archive moved to the resolved
output path. -/
theorem c5_witness :
    ((backup w_mainfail fs0 "docker" "a" "out" false).fst =
        Outcome.exit 1 ∧
      hasMove (backup w_mainfail fs0 "docker" "a" "out" false).snd =
        false) ∧
    ((backup w_list fs0 "docker" "a" "out" false).fst = Outcome.ok () ∧
      Event.move (fs0.resolveJoin fs0.tempDir (fs0.name (fs0.resolve "out")))
        (fs0.resolve "out") ∈
        (backup w_list fs0 "docker" "a" "out" false).snd) :=
  ⟨(c5_backup_move_gated w_mainfail fs0 "docker" "a" "out" false
      (by decide) (by decide)).1 (by decide),
   (c5_backup_move_gated w_list fs0 "docker" "a" "out" false
      (by decide) (by decide)).2 (by decide)⟩

/-- Claim C6: for every backup invocation, if the named volume does not
exist, or exists but is empty, the process exits with code 1 after at most
the two precondition invocations — before the archive container would be
invoked — and performs no filesystem move. -/
theorem c6_backup_preconditions (w : World) (fs : Fs) (e v o : String)
    (q : Bool)
    (h : volume_exists_result w e v = Outcome.ok false ∨
      (volume_exists_result w e v = Outcome.ok true ∧
       volume_empty_result w e v = Outcome.ok true)) :
    (backup w fs e v o q).fst = Outcome.exit 1 ∧
    hasMove (backup w fs e v o q).snd = false ∧
    runCount (backup w fs e v o q).snd ≤ 2 := by
  rcases h with hef | ⟨het, hemt⟩
  · refine ⟨?_, ?_, ?_⟩ <;>
      simp [backup, volume_exists, bindO, hef, hasMove, Event.isMove,
        runCount, Event.isRun]
  · refine ⟨?_, ?_, ?_⟩ <;>
      simp [backup, volume_exists, volume_empty, bindO, het, hemt, hasMove,
        Event.isMove, runCount, Event.isRun]

/-- Claim C6, witness: backing up volume `c`, which is absent from the
listing of `w_list`, exits with code 1 after one invocation and moves
nothing. -/
theorem c6_witness :
    (backup w_list fs0 "docker" "c" "out" false).fst = Outcome.exit 1 ∧
    hasMove (backup w_list fs0 "docker" "c" "out" false).snd = false ∧
    runCount (backup w_list fs0 "docker" "c" "out" false).snd ≤ 2 :=
  c6_backup_preconditions w_list fs0 "docker" "c" "out" false
    (Or.inl (by decide))

/-- Claim C7: for every restore invocation, if the target volume does not
exist, or the target volume is not empty, or the resolved input path does
not exist on the filesystem, the process exits with code 1 after at most
the two precondition invocations, without invoking the extraction
container. -/
theorem c7_restore_preconditions (w : World) (fs : Fs) (e i v : String)
    (q : Bool)
    (h : volume_exists_result w e v = Outcome.ok false ∨
      (volume_exists_result w e v = Outcome.ok true ∧
       volume_empty_result w e v = Outcome.ok false) ∨
      (volume_exists_result w e v = Outcome.ok true ∧
       volume_empty_result w e v = Outcome.ok true ∧
       fs.pathExists (fs.resolve i) = false)) :
    (restore w fs e i v q).fst = Outcome.exit 1 ∧
    runCount (restore w fs e i v q).snd ≤ 2 := by
  rcases h with hef | ⟨het, hne⟩ | ⟨het, hemt, hp⟩
  · constructor <;>
      simp [restore, volume_exists, bindO, hef, runCount, Event.isRun]
  · constructor <;>
      simp [restore, volume_exists, volume_empty, bindO, het, hne,
        runCount, Event.isRun]
  · constructor <;>
      simp [restore, volume_exists, volume_empty, bindO, het, hemt, hp,
        runCount, Event.isRun]

/-- Claim C7, witness: restoring into volume `a`, which is non-empty in
`w_list`, exits with code 1 after the two precondition invocations. -/
theorem c7_witness :
    (restore w_list fs0 "docker" "in.tar" "a" false).fst =
      Outcome.exit 1 ∧
    runCount (restore w_list fs0 "docker" "in.tar" "a" false).snd ≤ 2 :=
  c7_restore_preconditions w_list fs0 "docker" "in.tar" "a" false
    (Or.inr (Or.inl ⟨by decide, by decide⟩))

/-- Claim C8: for every clone invocation, the copy container is invoked
(a fifth subprocess invocation occurs) only if the source volume exists and
is non-empty and the target volume exists and is empty; and any reached
violation of these four conditions causes an exit with code 1 after at most
the four precondition invocations, before the copy container is invoked. -/
theorem c8_clone_preconditions (w : World) (e s t : String) (q : Bool) :
    (runCount (clone w e s t q).snd = 5 →
      volume_exists_result w e s = Outcome.ok true ∧
      volume_empty_result w e s = Outcome.ok false ∧
      volume_exists_result w e t = Outcome.ok true ∧
      volume_empty_result w e t = Outcome.ok true) ∧
    ((volume_exists_result w e s = Outcome.ok false ∨
      (volume_exists_result w e s = Outcome.ok true ∧
       volume_empty_result w e s = Outcome.ok true) ∨
      (volume_exists_result w e s = Outcome.ok true ∧
       volume_empty_result w e s = Outcome.ok false ∧
       volume_exists_result w e t = Outcome.ok false) ∨
      (volume_exists_result w e s = Outcome.ok true ∧
       volume_empty_result w e s = Outcome.ok false ∧
       volume_exists_result w e t = Outcome.ok true ∧
       volume_empty_result w e t = Outcome.ok false)) →
      (clone w e s t q).fst = Outcome.exit 1 ∧
      runCount (clone w e s t q).snd ≤ 4) := by
  constructor
  · intro h5
    cases hx : volume_exists_result w e s with
    | exit c =>
      simp [clone, volume_exists, bindO, hx, runCount, Event.isRun] at h5
    | indexError =>
      simp [clone, volume_exists, bindO, hx, runCount, Event.isRun] at h5
    | ok b =>
      cases b with
      | false =>
        simp [clone, volume_exists, bindO, hx, runCount, Event.isRun] at h5
      | true =>
        cases he : volume_empty_result w e s with
        | exit c =>
          simp [clone, volume_exists, volume_empty, bindO, hx, he,
            runCount, Event.isRun] at h5
        | indexError =>
          simp [clone, volume_exists, volume_empty, bindO, hx, he,
            runCount, Event.isRun] at h5
        | ok b2 =>
          cases b2 with
          | true =>
            simp [clone, volume_exists, volume_empty, bindO, hx, he,
              runCount, Event.isRun] at h5
          | false =>
            cases hx2 : volume_exists_result w e t with
            | exit c =>
              simp [clone, volume_exists, volume_empty, bindO, hx, he,
                hx2, runCount, Event.isRun] at h5
            | indexError =>
              simp [clone, volume_exists, volume_empty, bindO, hx, he,
                hx2, runCount, Event.isRun] at h5
            | ok b3 =>
              cases b3 with
              | false =>
                simp [clone, volume_exists, volume_empty, bindO, hx, he,
                  hx2, runCount, Event.isRun] at h5
              | true =>
                cases he2 : volume_empty_result w e t with
                | exit c =>
                  simp [clone, volume_exists, volume_empty, bindO, hx, he,
                    hx2, he2, runCount, Event.isRun] at h5
                | indexError =>
                  simp [clone, volume_exists, volume_empty, bindO, hx, he,
                    hx2, he2, runCount, Event.isRun] at h5
                | ok b4 =>
                  cases b4 with
                  | false =>
                    simp [clone, volume_exists, volume_empty, bindO, hx,
                      he, hx2, he2, runCount, Event.isRun] at h5
                  | true => exact ⟨rfl, rfl, rfl, rfl⟩
  · intro h
    rcases h with hef | ⟨het, hemt⟩ | ⟨het, hne, htf⟩ | ⟨het, hne, htt, htne⟩
    · constructor <;>
        simp [clone, volume_exists, bindO, hef, runCount, Event.isRun]
    · constructor <;>
        simp [clone, volume_exists, volume_empty, bindO, het, hemt,
          runCount, Event.isRun]
    · constructor <;>
        simp [clone, volume_exists, volume_empty, bindO, het, hne, htf,
          runCount, Event.isRun]
    · constructor <;>
        simp [clone, volume_exists, volume_empty, bindO, het, hne, htt,
          htne, runCount, Event.isRun]

/-- Claim C8, witness: the successful clone of `a` into `b` under `w_list`
reaches the fifth invocation and all four conditions indeed hold; cloning
the empty volume `b` into `a` exits with code 1 after two invocations. -/
theorem c8_witness :
    (Kilonova.volume_exists_result w_list "docker" "a" = Outcome.ok true ∧
      volume_empty_result w_list "docker" "a" = Outcome.ok false ∧
      volume_exists_result w_list "docker" "b" = Outcome.ok true ∧
      volume_empty_result w_list "docker" "b" = Outcome.ok true) ∧
    ((clone w_list "docker" "b" "a" false).fst = Outcome.exit 1 ∧
      runCount (clone w_list "docker" "b" "a" false).snd ≤ 4) :=
  ⟨(c8_clone_preconditions w_list "docker" "a" "b" false).1 (by decide),
   (c8_clone_preconditions w_list "docker" "b" "a" false).2
     (Or.inr (Or.inl ⟨by decide, by decide⟩))⟩

end Kilonova
